import Mathlib

/-!
# Verification of the galileo input event processor

A shallow embedding of `src/galileo/src/control/event_processor.rs`:
the `EventProcessor` state machine that turns raw platform input
(button presses/releases, pointer movement, scroll, touch start/move/end)
into semantic user events, the two-touch `GestureController`, and the
handler-chain dispatch loop of `EventProcessor::handle`.

Positions are modelled as rational pairs (the Rust code uses `f64`, but the
event processor itself only adds, subtracts, halves and compares
coordinates, which is exact); the gesture controller's Euclidean magnitudes
and angles live in `ℝ` via `Real.sqrt` and `Complex.arg` (the exact
semantics of `f64::atan2`'s mathematical counterpart).  Wall-clock times
are naturals counting milliseconds; Rust's
`now.duration_since(earlier).unwrap_or_default()` is exactly truncated
subtraction `now - earlier` on `ℕ`.

Types that live in `control/mod.rs` (not part of the sources examined:
`MouseButton`, `MouseButtonsState`, `MouseEvent`, `RawUserEvent`,
`UserEvent`, `TouchEvent`, `EventPropagation`) are modelled from the
spec's §3 and §6 vocabulary, as marked on each declaration.
-/

namespace Galileo

/-- A 2D point / vector with rational coordinates (models `Point2d`). -/
abbrev Point := ℚ × ℚ

/-- Modelled from the spec: component-wise subtraction of 2D points
(`Point2d - Point2d` from `galileo_types`). -/
def psub (a b : Point) : Point := (a.1 - b.1, a.2 - b.2)

/-- Modelled from the spec: the arithmetic mean of two points
(`(p1.coords + p2.coords) / 2`). -/
def pmid (a b : Point) : Point := ((a.1 + b.1) / 2, (a.2 + b.2) / 2)

/-- Modelled from the spec (glossary): taxicab distance between two points,
the sum of absolute coordinate differences (`CartesianPoint2d::taxicab_distance`). -/
def taxicab_distance (a b : Point) : ℚ := |a.1 - b.1| + |a.2 - b.2|

/-- Modelled from the spec: Euclidean magnitude of a 2D vector
(`Vector2::magnitude` from `galileo_types`/nalgebra), as a real number. -/
noncomputable def magnitude (v : Point) : ℝ :=
  Real.sqrt ((v.1 : ℝ) ^ 2 + (v.2 : ℝ) ^ 2)

/-- Modelled from the spec: the mathematical counterpart of `f64::atan2 y x`,
the angle of the vector `(x, y)` in `(-π, π]`. -/
noncomputable def atan2 (y x : ℝ) : ℝ := Complex.arg ⟨x, y⟩

/-- Modelled from the spec (§6): pointer buttons. -/
inductive MouseButton
  | Left
  | Right
  | Middle
  | Other
deriving DecidableEq

/-- Modelled from the spec (§3): the set of currently pressed pointer
buttons (`MouseButtonsState`). -/
structure MouseButtonsState where
  left : Bool
  right : Bool
  middle : Bool
  other : Bool
deriving DecidableEq

/-- The all-released buttons state (`MouseButtonsState::default`). -/
def MouseButtonsState.init : MouseButtonsState := ⟨false, false, false, false⟩

/-- Set one button's flag. -/
def MouseButtonsState.set (bs : MouseButtonsState) (b : MouseButton) (v : Bool) :
    MouseButtonsState :=
  match b with
  | .Left => { bs with left := v }
  | .Right => { bs with right := v }
  | .Middle => { bs with middle := v }
  | .Other => { bs with other := v }

/-- Modelled from the spec (§3): mark a button pressed (`set_pressed`). -/
def MouseButtonsState.set_pressed (bs : MouseButtonsState) (b : MouseButton) :
    MouseButtonsState := bs.set b true

/-- Modelled from the spec (§3): mark a button released (`set_released`). -/
def MouseButtonsState.set_released (bs : MouseButtonsState) (b : MouseButton) :
    MouseButtonsState := bs.set b false

/-- The list of currently pressed buttons. -/
def MouseButtonsState.pressed_buttons (bs : MouseButtonsState) : List MouseButton :=
  (if bs.left then [MouseButton.Left] else []) ++
  (if bs.right then [MouseButton.Right] else []) ++
  (if bs.middle then [MouseButton.Middle] else []) ++
  (if bs.other then [MouseButton.Other] else [])

/-- Modelled from the spec (§3): the "exactly one button pressed" query
(`single_pressed`): the unique pressed button, if exactly one is pressed. -/
def MouseButtonsState.single_pressed (bs : MouseButtonsState) : Option MouseButton :=
  match bs.pressed_buttons with
  | [b] => some b
  | _ => none

/-- Modelled from the spec (§6): the pointer-state snapshot carried by
semantic events (`MouseEvent`). -/
structure MouseEvent where
  screen_pointer_position : Point
  buttons : MouseButtonsState

/-- Modelled from the spec (§6): a raw touch event payload (`TouchEvent`). -/
structure TouchEvent where
  touch_id : ℕ
  position : Point

/-- Modelled from the spec (§6): the raw input vocabulary (`RawUserEvent`). -/
inductive RawUserEvent
  | ButtonPressed (button : MouseButton)
  | ButtonReleased (button : MouseButton)
  | PointerMoved (position : Point)
  | Scroll (delta : ℚ)
  | TouchStart (touch : TouchEvent)
  | TouchMove (touch : TouchEvent)
  | TouchEnd (touch : TouchEvent)

/-- Modelled from the spec (§6): the semantic event vocabulary (`UserEvent`). -/
inductive UserEvent
  | ButtonPressed (button : MouseButton) (e : MouseEvent)
  | ButtonReleased (button : MouseButton) (e : MouseEvent)
  | Click (button : MouseButton) (e : MouseEvent)
  | DoubleClick (button : MouseButton) (e : MouseEvent)
  | PointerMoved (e : MouseEvent)
  | Scroll (delta : ℚ) (e : MouseEvent)
  | DragStarted (button : MouseButton) (e : MouseEvent)
  | Drag (button : MouseButton) (delta : Point) (e : MouseEvent)
  | DragEnded (button : MouseButton) (e : MouseEvent)
  | Pan (delta : Point) (midpoint : Point)
  | Zoom (zoom : ℝ) (anchor : Point)
  | Rotate (tilt : ℝ) (rotation : ℝ)

/-- Modelled from the spec (§6): a handler's three-way propagation outcome. -/
inductive EventPropagation
  | Propagate
  | Stop
  | Consume
deriving DecidableEq

/-- `const DRAG_THRESHOLD: f64 = 3.0`. -/
def DRAG_THRESHOLD : ℚ := 3

/-- `const ZOOM_THRESHOLD: f64 = 60.0`. -/
noncomputable def ZOOM_THRESHOLD : ℝ := 60

/-- `const TILT_THRESHOLD: f64 = 60.0`. -/
noncomputable def TILT_THRESHOLD : ℝ := 60

/-- `const ROTATE_THRESHOLD: f64 = 0.10`. -/
noncomputable def ROTATE_THRESHOLD : ℝ := 1 / 10

/-- `const CLICK_TIMEOUT: Duration = 200 ms`, in milliseconds. -/
def CLICK_TIMEOUT : ℕ := 200

/-- `const DBL_CLICK_TIMEOUT: Duration = 500 ms`, in milliseconds. -/
def DBL_CLICK_TIMEOUT : ℕ := 500

/-- `struct TouchInfo`: one tracked touch contact. -/
structure TouchInfo where
  id : ℕ
  start_position : Point
  start_time : ℕ
  prev_position : Point

/-- `enum TouchMode`: the gesture mode. -/
inductive TouchMode
  | Pan
  | Zoom
  | Tilt
  | Rotate
deriving DecidableEq

/-- `struct GestureController`: state of the two-touch gesture recognizer. -/
structure GestureController where
  touch_mode : TouchMode
  midpoint_start : Point
  angle_start : ℝ
  distance_start : ℝ

/-- `GestureController::default`. -/
noncomputable def GestureController.init : GestureController :=
  { touch_mode := TouchMode.Pan
    midpoint_start := (0, 0)
    angle_start := 0
    distance_start := 0 }

/-- `GestureController::start`: capture the baseline from the two contacts'
start positions and reset the mode to `Pan`. -/
noncomputable def GestureController.start (_gc : GestureController)
    (t0 t1 : TouchInfo) : GestureController :=
  let delta := psub t0.start_position t1.start_position
  { distance_start := magnitude delta
    midpoint_start := pmid t0.start_position t1.start_position
    angle_start := atan2 (delta.2 : ℝ) (delta.1 : ℝ)
    touch_mode := TouchMode.Pan }

/-- The "new positions" of the two contacts after the moving contact's
reported position replaces its previous one (`new_positions` in
`GestureController::update_gesture`). -/
def new_positions (t0 t1 : TouchInfo) (event : TouchEvent) : Point × Point :=
  if event.touch_id = t0.id then (event.position, t1.prev_position)
  else (t0.prev_position, event.position)

/-- The position of the non-moving contact (`other_touch_position`). -/
def other_touch_position (t0 t1 : TouchInfo) (event : TouchEvent) : Point :=
  if event.touch_id = t0.id then t1.prev_position else t0.prev_position

/-- Inter-touch Euclidean distance of a pair of positions. -/
noncomputable def pair_distance (p : Point × Point) : ℝ :=
  magnitude (psub p.1 p.2)

/-- Inter-touch angle of a pair of positions. -/
noncomputable def pair_angle (p : Point × Point) : ℝ :=
  let delta := psub p.1 p.2
  atan2 (delta.2 : ℝ) (delta.1 : ℝ)

/-- Mode-transition step of `GestureController::update_gesture`: evaluated
only while still in `Pan`; checks Zoom, then Tilt, then Rotate thresholds. -/
noncomputable def gesture_mode_step (gc : GestureController)
    (distance : ℝ) (midpoint : Point) (angle : ℝ) : TouchMode :=
  if gc.touch_mode = TouchMode.Pan then
    if |distance - gc.distance_start| > ZOOM_THRESHOLD then TouchMode.Zoom
    else if magnitude (psub midpoint gc.midpoint_start) > TILT_THRESHOLD then TouchMode.Tilt
    else if |angle - gc.angle_start| > ROTATE_THRESHOLD then TouchMode.Rotate
    else TouchMode.Pan
  else gc.touch_mode

/-- `GestureController::update_gesture`: classify the motion of one of the
two tracked contacts and emit the corresponding gesture event.  Returns the
updated controller together with the emitted events. -/
noncomputable def GestureController.update_gesture (gc : GestureController)
    (t0 t1 : TouchInfo) (event : TouchEvent) : GestureController × List UserEvent :=
  if ¬(t0.id = event.touch_id ∨ t1.id = event.touch_id) then (gc, [])
  else
    let old_positions : Point × Point := (t0.prev_position, t1.prev_position)
    let news := new_positions t0 t1 event
    let distance := pair_distance news
    let midpoint := pmid news.1 news.2
    let angle := pair_angle news
    let gc' := { gc with touch_mode := gesture_mode_step gc distance midpoint angle }
    let events : List UserEvent :=
      match gc'.touch_mode with
      | TouchMode.Pan =>
          let last_midpoint := pmid old_positions.1 old_positions.2
          [UserEvent.Pan (psub midpoint last_midpoint) midpoint]
      | TouchMode.Zoom =>
          let prev_distance := pair_distance old_positions
          [UserEvent.Zoom (prev_distance / distance) (other_touch_position t0 t1 event)]
      | TouchMode.Rotate =>
          let old_angle := pair_angle old_positions
          [UserEvent.Rotate 0 (-(angle - old_angle))]
      | TouchMode.Tilt =>
          let last_midpoint := pmid old_positions.1 old_positions.2
          [UserEvent.Rotate ((psub midpoint last_midpoint).2 : ℝ) 0]
    (gc', events)

/-- `struct EventProcessor`: the input-normalizer state (the handler chain
itself is modelled separately, as a response function, in the dispatch
definitions below). -/
structure EventProcessor where
  pointer_position : Point
  pointer_pressed_position : Point
  touches : List TouchInfo
  gesture_controller : GestureController
  buttons_state : MouseButtonsState
  last_pressed_time : ℕ
  last_click_time : ℕ
  drag_target : Option ℕ

/-- `EventProcessor::default` (times start at the epoch, i.e. 0 ms). -/
noncomputable def EventProcessor.init : EventProcessor :=
  { pointer_position := (0, 0)
    pointer_pressed_position := (0, 0)
    touches := []
    gesture_controller := GestureController.init
    buttons_state := MouseButtonsState.init
    last_pressed_time := 0
    last_click_time := 0
    drag_target := none }

/-- `EventProcessor::get_mouse_event_pos`. -/
def EventProcessor.get_mouse_event_pos (s : EventProcessor) (pos : Point) :
    MouseEvent :=
  { screen_pointer_position := pos, buttons := s.buttons_state }

/-- `EventProcessor::get_mouse_event`. -/
def EventProcessor.get_mouse_event (s : EventProcessor) : MouseEvent :=
  s.get_mouse_event_pos s.pointer_position

/-- `EventProcessor::process`: consume one raw event at wall-clock time
`now` (milliseconds), update the state, and produce the ordered semantic
event list (`none` models Rust's `None`, i.e. "no output").
`now - earlier` on `ℕ` is exactly
`now.duration_since(earlier).unwrap_or_default()`: zero when the
subtraction would underflow. -/
noncomputable def EventProcessor.process (s : EventProcessor)
    (event : RawUserEvent) (now : ℕ) : EventProcessor × Option (List UserEvent) :=
  match event with
  | RawUserEvent.ButtonPressed button =>
      let s1 := { s with
        buttons_state := s.buttons_state.set_pressed button
        last_pressed_time := now
        pointer_pressed_position := s.pointer_position }
      (s1, some [UserEvent.ButtonPressed button s1.get_mouse_event])
  | RawUserEvent.ButtonReleased button =>
      let s1 := { s with buttons_state := s.buttons_state.set_released button }
      let base := [UserEvent.ButtonReleased button s1.get_mouse_event]
      if now - s1.last_pressed_time < CLICK_TIMEOUT then
        let withClick := base ++ [UserEvent.Click button s1.get_mouse_event]
        let withDbl :=
          if now - s1.last_click_time < DBL_CLICK_TIMEOUT then
            withClick ++ [UserEvent.DoubleClick button s1.get_mouse_event]
          else withClick
        let s2 := { s1 with last_click_time := now }
        match s2.drag_target with
        | some _ =>
            ({ s2 with drag_target := none },
              some (withDbl ++ [UserEvent.DragEnded button s2.get_mouse_event]))
        | none => (s2, some withDbl)
      else (s1, some base)
  | RawUserEvent.PointerMoved position =>
      let prev_position := s.pointer_position
      let s1 := { s with pointer_position := position }
      let base := [UserEvent.PointerMoved s1.get_mouse_event]
      match s1.buttons_state.single_pressed with
      | none => (s1, some base)
      | some button =>
          let started : Bool := s1.drag_target.isNone &&
            decide (taxicab_distance position s1.pointer_pressed_position > DRAG_THRESHOLD)
          let is_dragging : Bool := s1.drag_target.isSome || started
          let evs := base ++
            (if started then
              [UserEvent.DragStarted button
                (s1.get_mouse_event_pos s1.pointer_pressed_position)]
             else []) ++
            (if is_dragging then
              [UserEvent.Drag button (psub s1.pointer_position prev_position)
                s1.get_mouse_event]
             else [])
          (s1, some evs)
  | RawUserEvent.Scroll delta =>
      (s, some [UserEvent.Scroll delta s.get_mouse_event])
  | RawUserEvent.TouchStart touch =>
      let touches1 := s.touches.eraseP (fun t => t.id == touch.touch_id)
      let touches2 := touches1 ++
        [{ id := touch.touch_id, start_position := touch.position,
           start_time := now, prev_position := touch.position }]
      let s1 := { s with touches := touches2 }
      match touches2 with
      | [a, b] =>
          ({ s1 with gesture_controller := s.gesture_controller.start a b }, none)
      | _ => (s1, none)
  | RawUserEvent.TouchMove touch =>
      match s.touches.find? (fun t => t.id == touch.touch_id) with
      | none => (s, none)
      | some touch_info =>
          let position := touch.position
          let updated := s.touches.map (fun t =>
            if t.id == touch.touch_id then { t with prev_position := position } else t)
          match s.touches with
      | [_t] =>
          let started : Bool := s.drag_target.isNone &&
            decide (taxicab_distance position touch_info.start_position > DRAG_THRESHOLD)
          let is_dragging : Bool := s.drag_target.isSome || started
          let evs :=
            (if started then
              [UserEvent.DragStarted MouseButton.Other
                (s.get_mouse_event_pos touch_info.start_position)]
             else []) ++
            (if is_dragging then
              [UserEvent.Drag MouseButton.Other (psub position touch_info.prev_position)
                (s.get_mouse_event_pos position)]
             else [])
          ({ s with touches := updated }, some evs)
      | [a, b] =>
          let r := s.gesture_controller.update_gesture a b touch
          ({ s with touches := updated, gesture_controller := r.1 }, some r.2)
      | _ => ({ s with touches := updated }, some [])
  | RawUserEvent.TouchEnd touch =>
      let touches1 := s.touches.eraseP (fun t => t.id == touch.touch_id)
      let s1 := { s with touches := touches1 }
      if s1.drag_target.isSome && touches1.isEmpty then
        ({ s1 with drag_target := none },
          some [UserEvent.DragEnded MouseButton.Other
            (s1.get_mouse_event_pos touch.position)])
      else (s1, some [])

/-- Is this event a `Drag` or a `DragEnded`?  (The dispatch loop's
`matches!(user_event, UserEvent::Drag(..) | UserEvent::DragEnded(..))`.) -/
def is_drag_or_drag_ended : UserEvent → Bool
  | UserEvent.Drag _ _ _ => true
  | UserEvent.DragEnded _ _ => true
  | _ => false

/-- Is this event a `DragStarted`? -/
def is_drag_started : UserEvent → Bool
  | UserEvent.DragStarted _ _ => true
  | _ => false

/-- Is this event a `DragEnded`? -/
def is_drag_ended : UserEvent → Bool
  | UserEvent.DragEnded _ _ => true
  | _ => false

/-- A handler chain, abstracted to its observable responses: `resp i ev` is
the `EventPropagation` that the handler at chain index `i` returns for `ev`. -/
abbrev HandlerChain := ℕ → UserEvent → EventPropagation

/-- The inner `for (index, handler) in self.handlers.iter_mut().enumerate()`
loop of `EventProcessor::handle`, dispatching one event over the remaining
handler indices.  Returns the indices whose handlers were actually offered
the event (in order) together with the `drag_start_target` the loop ends
with. -/
def dispatchLoop (resp : HandlerChain) (dragTarget : Option ℕ)
    (ev : UserEvent) : List ℕ → List ℕ × Option ℕ
  | [] => ([], none)
  | i :: rest =>
      if is_drag_or_drag_ended ev ∧ dragTarget ≠ some i then
        dispatchLoop resp dragTarget ev rest
      else
        match resp i ev with
        | EventPropagation.Propagate =>
            let r := dispatchLoop resp dragTarget ev rest
            (i :: r.1, r.2)
        | EventPropagation.Stop => ([i], none)
        | EventPropagation.Consume =>
            ([i], if is_drag_started ev then some i else none)

/-- Dispatch of a single semantic event over a chain of `n` handlers,
including the post-loop drag-target bookkeeping of `EventProcessor::handle`:
apply `drag_start_target` if the loop produced one, then clear the target if
the event was a `DragEnded`.  Returns the offered handler indices and the
new drag target. -/
def dispatchEvent (resp : HandlerChain) (n : ℕ) (dragTarget : Option ℕ)
    (ev : UserEvent) : List ℕ × Option ℕ :=
  let r := dispatchLoop resp dragTarget ev (List.range n)
  let target1 := if r.2.isSome then r.2 else dragTarget
  let target2 := if is_drag_ended ev then none else target1
  (r.1, target2)

/-- The outer `for user_event in user_events` loop of
`EventProcessor::handle`: dispatch each produced event in order, threading
the drag target through.  Returns each event paired with the handler
indices it was offered to, and the final drag target. -/
def handleEvents (resp : HandlerChain) (n : ℕ) :
    Option ℕ → List UserEvent → List (UserEvent × List ℕ) × Option ℕ
  | dt, [] => ([], dt)
  | dt, ev :: rest =>
      let r := dispatchEvent resp n dt ev
      let rest' := handleEvents resp n r.2 rest
      ((ev, r.1) :: rest'.1, rest'.2)

/-- `EventProcessor::handle`: process the raw event, then dispatch every
produced semantic event through the handler chain.  Returns the final state
and, for observability, each dispatched event with the handler indices it
was offered to. -/
noncomputable def EventProcessor.handle (s : EventProcessor) (resp : HandlerChain)
    (n : ℕ) (event : RawUserEvent) (now : ℕ) :
    EventProcessor × List (UserEvent × List ℕ) :=
  match s.process event now with
  | (s1, none) => (s1, [])
  | (s1, some user_events) =>
      let r := handleEvents resp n s1.drag_target user_events
      ({ s1 with drag_target := r.2 }, r.1)

/-- A handler chain in which every handler propagates every event. -/
def propagateAll : HandlerChain := fun _ _ => EventPropagation.Propagate

/-- A handler chain in which every handler consumes every event. -/
def consumeAll : HandlerChain := fun _ _ => EventPropagation.Consume

/-- Concrete run for C1, no consuming handler: press `Left` at the origin. -/
noncomputable def c1_run_press : EventProcessor × List (UserEvent × List ℕ) :=
  EventProcessor.init.handle propagateAll 0 (RawUserEvent.ButtonPressed MouseButton.Left) 0

/-- ... then move the pointer to `(10, 0)` (taxicab distance 10 > 3). -/
noncomputable def c1_run_move1 : EventProcessor × List (UserEvent × List ℕ) :=
  c1_run_press.1.handle propagateAll 0 (RawUserEvent.PointerMoved (10, 0)) 1

/-- ... then move the pointer to `(20, 0)`, the button still pressed. -/
noncomputable def c1_run_move2 : EventProcessor × List (UserEvent × List ℕ) :=
  c1_run_move1.1.handle propagateAll 0 (RawUserEvent.PointerMoved (20, 0)) 2

/-- Concrete run for C1, a single handler that consumes everything: press
`Left` at the origin. -/
noncomputable def c1_pin_press : EventProcessor × List (UserEvent × List ℕ) :=
  EventProcessor.init.handle consumeAll 1 (RawUserEvent.ButtonPressed MouseButton.Left) 0

/-- ... then move the pointer to `(10, 0)`; the handler consumes the
`DragStarted`, pinning the drag target to handler 0. -/
noncomputable def c1_pin_move1 : EventProcessor × List (UserEvent × List ℕ) :=
  c1_pin_press.1.handle consumeAll 1 (RawUserEvent.PointerMoved (10, 0)) 1

/-- ... then move the pointer back to `(2, 0)` (taxicab distance 2 ≤ 3 from
the press-origin), the button still pressed and the drag target pinned. -/
noncomputable def c1_pin_move2 : EventProcessor × List (UserEvent × List ℕ) :=
  c1_pin_move1.1.handle consumeAll 1 (RawUserEvent.PointerMoved (2, 0)) 2

/-- Contact 1 of the spec's concrete scenario C: touch-start id 1 at
`(0, 0)`. -/
def scenario_touch1 : TouchInfo := ⟨1, (0, 0), 0, (0, 0)⟩

/-- Contact 2 of the spec's concrete scenario C: touch-start id 2 at
`(100, 0)`. -/
def scenario_touch2 : TouchInfo := ⟨2, (100, 0), 0, (100, 0)⟩

/-- Scenario C state after the two touch-starts. -/
noncomputable def scenario_s2 : EventProcessor :=
  ((EventProcessor.init.process (RawUserEvent.TouchStart ⟨1, (0, 0)⟩) 0).1.process
    (RawUserEvent.TouchStart ⟨2, (100, 0)⟩) 0).1

/-- Scenario C result of the touch-move of contact 1 to `(0, 130)`. -/
noncomputable def scenario_step3 : EventProcessor × Option (List UserEvent) :=
  scenario_s2.process (RawUserEvent.TouchMove ⟨1, (0, 130)⟩) 0

/-- A gesture controller already locked in `Zoom` mode. -/
noncomputable def gcZoomLocked : GestureController :=
  ⟨TouchMode.Zoom, (0, 0), 0, 0⟩

/-- C2 counterexample: the claim says an underflowing comparison (event
time before the recorded reference time) emits no `Click` and no
`DoubleClick`; but at the concrete input `now = 500` with
`last_pressed_time = last_click_time = 1000` the code's
`unwrap_or_default()` clamps the elapsed time to zero, which is inside both
windows, so `Click` and `DoubleClick` are both emitted. -/
theorem C2_counterexample :
    UserEvent.Click MouseButton.Left ⟨(0, 0), MouseButtonsState.init⟩ ∈
      (({ EventProcessor.init with last_pressed_time := 1000, last_click_time := 1000 }
          : EventProcessor).process
        (RawUserEvent.ButtonReleased MouseButton.Left) 500).2.getD []
    ∧ UserEvent.DoubleClick MouseButton.Left ⟨(0, 0), MouseButtonsState.init⟩ ∈
      (({ EventProcessor.init with last_pressed_time := 1000, last_click_time := 1000 }
          : EventProcessor).process
        (RawUserEvent.ButtonReleased MouseButton.Left) 500).2.getD [] := by
  constructor <;>
    simp [EventProcessor.process, EventProcessor.init, CLICK_TIMEOUT, DBL_CLICK_TIMEOUT,
      EventProcessor.get_mouse_event, EventProcessor.get_mouse_event_pos,
      MouseButtonsState.set_released, MouseButtonsState.set, MouseButtonsState.init]

/-- C2, amended: whenever the event timestamp precedes a recorded reference
timestamp, the elapsed-time comparison clamps the elapsed time to zero,
which is *within* the window: an underflowing press comparison emits
`Click`, and (inside the click branch) an underflowing last-click
comparison emits `DoubleClick`. -/
theorem C2_underflow_within_window (s : EventProcessor) (button : MouseButton) (now : ℕ)
    (h : now < s.last_pressed_time) :
    UserEvent.Click button ⟨s.pointer_position, s.buttons_state.set_released button⟩
      ∈ (s.process (RawUserEvent.ButtonReleased button) now).2.getD []
    ∧ (now < s.last_click_time →
        UserEvent.DoubleClick button
            ⟨s.pointer_position, s.buttons_state.set_released button⟩
          ∈ (s.process (RawUserEvent.ButtonReleased button) now).2.getD []) := by
  have h1 : now - s.last_pressed_time = 0 := Nat.sub_eq_zero_of_le h.le
  refine ⟨?_, fun h2 => ?_⟩
  · by_cases hdb : now - s.last_click_time < DBL_CLICK_TIMEOUT <;>
      rcases hdt : s.drag_target with _ | i <;>
      simp [EventProcessor.process, h1, hdb, hdt, CLICK_TIMEOUT,
        EventProcessor.get_mouse_event, EventProcessor.get_mouse_event_pos]
  · have hdb : now - s.last_click_time = 0 := Nat.sub_eq_zero_of_le h2.le
    rcases hdt : s.drag_target with _ | i <;>
      simp [EventProcessor.process, h1, hdb, hdt, CLICK_TIMEOUT, DBL_CLICK_TIMEOUT,
        EventProcessor.get_mouse_event, EventProcessor.get_mouse_event_pos]

/-- Witness for the amended C2 at a concrete input: release at time 300
with both reference timestamps recorded at 700. -/
theorem C2_witness :
    UserEvent.Click MouseButton.Right ⟨(0, 0), MouseButtonsState.init⟩ ∈
      (({ EventProcessor.init with last_pressed_time := 700, last_click_time := 700 }
          : EventProcessor).process
        (RawUserEvent.ButtonReleased MouseButton.Right) 300).2.getD []
    ∧ UserEvent.DoubleClick MouseButton.Right ⟨(0, 0), MouseButtonsState.init⟩ ∈
      (({ EventProcessor.init with last_pressed_time := 700, last_click_time := 700 }
          : EventProcessor).process
        (RawUserEvent.ButtonReleased MouseButton.Right) 300).2.getD [] := by
  have := C2_underflow_within_window
    ({ EventProcessor.init with last_pressed_time := 700, last_click_time := 700 })
    MouseButton.Right 300 (by norm_num)
  refine ⟨?_, this.2 (by norm_num)⟩
  have h1 := this.1
  simpa [EventProcessor.init, MouseButtonsState.set_released, MouseButtonsState.set,
    MouseButtonsState.init] using h1

/-- C3: on `ButtonReleased`, a `ButtonReleased` event is always emitted
first; if the release occurs strictly less than 200 ms after the recorded
press time, `Click` is also emitted, and if that click occurs strictly less
than 500 ms after the previous click timestamp, `DoubleClick` is also
emitted; the last-click timestamp is updated to `now` whenever a `Click`
is emitted, whether or not a `DoubleClick` was; at ≥ 200 ms after the
press no `Click` is emitted. -/
theorem C3_click_detection (s : EventProcessor) (button : MouseButton) (now : ℕ)
    (hp : s.last_pressed_time ≤ now) :
    ((s.process (RawUserEvent.ButtonReleased button) now).2.getD []).head? =
      some (UserEvent.ButtonReleased button
        ⟨s.pointer_position, s.buttons_state.set_released button⟩)
    ∧ (now - s.last_pressed_time < CLICK_TIMEOUT →
        UserEvent.Click button ⟨s.pointer_position, s.buttons_state.set_released button⟩
          ∈ (s.process (RawUserEvent.ButtonReleased button) now).2.getD []
        ∧ (s.process (RawUserEvent.ButtonReleased button) now).1.last_click_time = now
        ∧ (now - s.last_click_time < DBL_CLICK_TIMEOUT →
            UserEvent.DoubleClick button
                ⟨s.pointer_position, s.buttons_state.set_released button⟩
              ∈ (s.process (RawUserEvent.ButtonReleased button) now).2.getD [])
        ∧ (DBL_CLICK_TIMEOUT ≤ now - s.last_click_time →
            ∀ b m, UserEvent.DoubleClick b m ∉
              (s.process (RawUserEvent.ButtonReleased button) now).2.getD []))
    ∧ (CLICK_TIMEOUT ≤ now - s.last_pressed_time →
        ∀ b m, UserEvent.Click b m ∉
          (s.process (RawUserEvent.ButtonReleased button) now).2.getD []) := by
  refine ⟨?_, fun hc => ⟨?_, ?_, fun hdb => ?_, fun hdb b m => ?_⟩, fun hc b m => ?_⟩
  · by_cases hc' : now - s.last_pressed_time < CLICK_TIMEOUT <;>
      by_cases hdb' : now - s.last_click_time < DBL_CLICK_TIMEOUT <;>
      rcases hdt : s.drag_target with _ | i <;>
      simp [EventProcessor.process, hc', hdb', hdt,
        EventProcessor.get_mouse_event, EventProcessor.get_mouse_event_pos]
  · by_cases hdb' : now - s.last_click_time < DBL_CLICK_TIMEOUT <;>
      rcases hdt : s.drag_target with _ | i <;>
      simp [EventProcessor.process, hc, hdb', hdt,
        EventProcessor.get_mouse_event, EventProcessor.get_mouse_event_pos]
  · by_cases hdb' : now - s.last_click_time < DBL_CLICK_TIMEOUT <;>
      rcases hdt : s.drag_target with _ | i <;>
      simp [EventProcessor.process, hc, hdb', hdt,
        EventProcessor.get_mouse_event, EventProcessor.get_mouse_event_pos]
  · rcases hdt : s.drag_target with _ | i <;>
      simp [EventProcessor.process, hc, hdb, hdt,
        EventProcessor.get_mouse_event, EventProcessor.get_mouse_event_pos]
  · rcases hdt : s.drag_target with _ | i <;>
      simp [EventProcessor.process, hc, not_lt.mpr hdb, hdt,
        EventProcessor.get_mouse_event, EventProcessor.get_mouse_event_pos]
  · rcases hdt : s.drag_target with _ | i <;>
      simp [EventProcessor.process, not_lt.mpr hc, hdt,
        EventProcessor.get_mouse_event, EventProcessor.get_mouse_event_pos]

/-- Witness for C3 at a concrete input: press recorded at 100, release at
250 (inside the 200 ms window), previous click at 0 (250 ms earlier, inside
the 500 ms window). -/
theorem C3_witness :
    UserEvent.Click MouseButton.Left ⟨(0, 0), MouseButtonsState.init⟩ ∈
      (({ EventProcessor.init with last_pressed_time := 100, last_click_time := 0 }
          : EventProcessor).process
        (RawUserEvent.ButtonReleased MouseButton.Left) 250).2.getD []
    ∧ UserEvent.DoubleClick MouseButton.Left ⟨(0, 0), MouseButtonsState.init⟩ ∈
      (({ EventProcessor.init with last_pressed_time := 100, last_click_time := 0 }
          : EventProcessor).process
        (RawUserEvent.ButtonReleased MouseButton.Left) 250).2.getD []
    ∧ (({ EventProcessor.init with last_pressed_time := 100, last_click_time := 0 }
          : EventProcessor).process
        (RawUserEvent.ButtonReleased MouseButton.Left) 250).1.last_click_time = 250 := by
  have := C3_click_detection
    ({ EventProcessor.init with last_pressed_time := 100, last_click_time := 0 })
    MouseButton.Left 250 (by norm_num)
  obtain ⟨-, h2, -⟩ := this
  obtain ⟨hclick, hupd, hdbl, -⟩ := h2 (by norm_num [CLICK_TIMEOUT])
  refine ⟨?_, ?_, hupd⟩
  · simpa [EventProcessor.init, MouseButtonsState.set_released, MouseButtonsState.set,
      MouseButtonsState.init] using hclick
  · simpa [EventProcessor.init, MouseButtonsState.set_released, MouseButtonsState.set,
      MouseButtonsState.init] using hdbl (by norm_num [DBL_CLICK_TIMEOUT])

/-- C4: on `ButtonReleased` with a drag target set, `DragEnded` is emitted
and the target cleared exactly when the release falls inside the 200 ms
click-timeout branch; a release at ≥ 200 ms after the press with a drag
still active emits no `DragEnded` and leaves the target set. -/
theorem C4_release_drag_ended (s : EventProcessor) (button : MouseButton) (now i : ℕ)
    (hd : s.drag_target = some i) (hp : s.last_pressed_time ≤ now) :
    (now - s.last_pressed_time < CLICK_TIMEOUT →
        UserEvent.DragEnded button ⟨s.pointer_position, s.buttons_state.set_released button⟩
          ∈ (s.process (RawUserEvent.ButtonReleased button) now).2.getD []
        ∧ (s.process (RawUserEvent.ButtonReleased button) now).1.drag_target = none)
    ∧ (CLICK_TIMEOUT ≤ now - s.last_pressed_time →
        (∀ b m, UserEvent.DragEnded b m ∉
          (s.process (RawUserEvent.ButtonReleased button) now).2.getD [])
        ∧ (s.process (RawUserEvent.ButtonReleased button) now).1.drag_target = some i) := by
  refine ⟨fun hc => ?_, fun hc => ?_⟩
  · by_cases hdb' : now - s.last_click_time < DBL_CLICK_TIMEOUT <;>
      simp [EventProcessor.process, hc, hdb', hd,
        EventProcessor.get_mouse_event, EventProcessor.get_mouse_event_pos]
  · have hc2 : ¬(now - s.last_pressed_time < CLICK_TIMEOUT) := not_lt.mpr hc
    simp [EventProcessor.process, hc2, hd,
      EventProcessor.get_mouse_event, EventProcessor.get_mouse_event_pos]

/-- Witness for C4 at concrete inputs, both branches: a quick release (50 ms
after the press) with drag target 3 emits `DragEnded` and clears the
target; a slow release (300 ms after the press) emits no `DragEnded` and
keeps target 3. -/
theorem C4_witness :
    (UserEvent.DragEnded MouseButton.Left ⟨(0, 0), MouseButtonsState.init⟩ ∈
        (({ EventProcessor.init with last_pressed_time := 100, drag_target := some 3 }
            : EventProcessor).process
          (RawUserEvent.ButtonReleased MouseButton.Left) 150).2.getD []
      ∧ (({ EventProcessor.init with last_pressed_time := 100, drag_target := some 3 }
            : EventProcessor).process
          (RawUserEvent.ButtonReleased MouseButton.Left) 150).1.drag_target = none)
    ∧ ((∀ b m, UserEvent.DragEnded b m ∉
        (({ EventProcessor.init with last_pressed_time := 100, drag_target := some 3 }
            : EventProcessor).process
          (RawUserEvent.ButtonReleased MouseButton.Left) 400).2.getD [])
      ∧ (({ EventProcessor.init with last_pressed_time := 100, drag_target := some 3 }
            : EventProcessor).process
          (RawUserEvent.ButtonReleased MouseButton.Left) 400).1.drag_target = some 3) := by
  constructor
  · have := (C4_release_drag_ended
      ({ EventProcessor.init with last_pressed_time := 100, drag_target := some 3 })
      MouseButton.Left 150 3 rfl (by norm_num)).1 (by norm_num [CLICK_TIMEOUT])
    refine ⟨?_, this.2⟩
    simpa [EventProcessor.init, MouseButtonsState.set_released, MouseButtonsState.set,
      MouseButtonsState.init] using this.1
  · exact (C4_release_drag_ended
      ({ EventProcessor.init with last_pressed_time := 100, drag_target := some 3 })
      MouseButton.Left 400 3 rfl (by norm_num)).2 (by norm_num [CLICK_TIMEOUT])

/-- C9: click matching is time-based only, not button-based: releasing
button `b` strictly less than 200 ms after the most recent `ButtonPressed`
emits `Click(b)` even when that press was of a different button `a`. -/
theorem C9_click_time_based (s : EventProcessor) (a b : MouseButton) (tp tr : ℕ)
    (hab : a ≠ b) (h1 : tp ≤ tr) (h2 : tr - tp < CLICK_TIMEOUT) :
    UserEvent.Click b
        ⟨s.pointer_position, (s.buttons_state.set_pressed a).set_released b⟩
      ∈ (((s.process (RawUserEvent.ButtonPressed a) tp).1).process
          (RawUserEvent.ButtonReleased b) tr).2.getD [] := by
  rcases hdt : s.drag_target with _ | i <;>
    simp [EventProcessor.process, h2, hdt,
      EventProcessor.get_mouse_event, EventProcessor.get_mouse_event_pos,
      MouseButtonsState.set_pressed] <;>
    split <;> simp

/-- Witness for C9 at a concrete input: press `Left` at time 0, release
`Right` at time 50 — `Click(Right)` is emitted although `Right` was never
the pressed button that started the timing window. -/
theorem C9_witness :
    UserEvent.Click MouseButton.Right
        ⟨(0, 0), (MouseButtonsState.init.set_pressed MouseButton.Left).set_released
          MouseButton.Right⟩
      ∈ (((EventProcessor.init.process (RawUserEvent.ButtonPressed MouseButton.Left) 0).1).process
          (RawUserEvent.ButtonReleased MouseButton.Right) 50).2.getD [] :=
  C9_click_time_based EventProcessor.init MouseButton.Left MouseButton.Right 0 50
    (by decide) (by norm_num) (by norm_num [CLICK_TIMEOUT])

/-- C8: for every state and every touch-move raw event whose touch id
matches no tracked contact, processing produces no semantic events and
leaves all tracked state unchanged. -/
theorem C8_unknown_touch_move (s : EventProcessor) (touch : TouchEvent) (now : ℕ)
    (h : ∀ t ∈ s.touches, t.id ≠ touch.touch_id) :
    s.process (RawUserEvent.TouchMove touch) now = (s, none) := by
  have hf : s.touches.find? (fun t => t.id == touch.touch_id) = none := by
    rw [List.find?_eq_none]
    intro t ht
    simpa using h t ht
  simp [EventProcessor.process, hf]

/-- Witness for C8 at a concrete input: the initial state tracks no
contacts, so a touch-move for id 5 is a no-op. -/
theorem C8_witness :
    EventProcessor.init.process (RawUserEvent.TouchMove ⟨5, (1, 2)⟩) 7 =
      (EventProcessor.init, none) :=
  C8_unknown_touch_move EventProcessor.init ⟨5, (1, 2)⟩ 7
    (by intro t ht; simp [EventProcessor.init] at ht)

/-- C10: when three or more touch contacts are active, a touch-move for a
tracked contact produces no semantic events at all, yet still updates that
contact's previous position to the reported position. -/
theorem C10_three_touch_move (s : EventProcessor) (touch : TouchEvent) (now : ℕ)
    (h3 : 3 ≤ s.touches.length)
    (hf : (s.touches.find? (fun t => t.id == touch.touch_id)).isSome = true) :
    s.process (RawUserEvent.TouchMove touch) now =
      ({ s with touches := s.touches.map (fun t =>
          if t.id == touch.touch_id then { t with prev_position := touch.position }
          else t) },
        some []) := by
  obtain ⟨ti, hti⟩ := Option.isSome_iff_exists.mp hf
  rcases hts : s.touches with _ | ⟨a, _ | ⟨b, _ | ⟨c, l⟩⟩⟩ <;>
    rw [hts] at h3 <;> simp at h3
  rw [hts] at hti
  simp [EventProcessor.process, hts, hti]

/-- Witness for C10 at a concrete input: three tracked contacts, a move of
contact 2 produces `some []` and only updates contact 2's previous
position. -/
theorem C10_witness :
    ({ EventProcessor.init with touches :=
        [⟨1, (0, 0), 0, (0, 0)⟩, ⟨2, (5, 5), 0, (5, 5)⟩, ⟨3, (9, 9), 0, (9, 9)⟩] }
      : EventProcessor).process (RawUserEvent.TouchMove ⟨2, (6, 7)⟩) 11 =
      ({ EventProcessor.init with touches :=
          [⟨1, (0, 0), 0, (0, 0)⟩, ⟨2, (5, 5), 0, (6, 7)⟩, ⟨3, (9, 9), 0, (9, 9)⟩] },
        some []) := by
  have := C10_three_touch_move
    ({ EventProcessor.init with touches :=
        [⟨1, (0, 0), 0, (0, 0)⟩, ⟨2, (5, 5), 0, (5, 5)⟩, ⟨3, (9, 9), 0, (9, 9)⟩] })
    ⟨2, (6, 7)⟩ 11 (by simp) (by simp)
  simpa using this

/-- Helper: dispatching a `Drag`/`DragEnded` event with no pinned drag
target offers it to no handler and produces no drag-start target. -/
theorem dispatchLoop_drag_no_target (resp : HandlerChain) (ev : UserEvent)
    (h : is_drag_or_drag_ended ev = true) :
    ∀ l : List ℕ, dispatchLoop resp none ev l = ([], none) := by
  intro l
  induction l with
  | nil => rfl
  | cons j rest ih => simp [dispatchLoop, h, ih]

/-- Helper: dispatching a `Drag`/`DragEnded` event with drag target `t`
offers it to no handler other than `t`. -/
theorem dispatchLoop_drag_target_only (resp : HandlerChain) (ev : UserEvent) (t : ℕ)
    (h : is_drag_or_drag_ended ev = true) :
    ∀ l : List ℕ, ∀ i ∈ (dispatchLoop resp (some t) ev l).1, i = t := by
  intro l
  induction l with
  | nil => intro i hi; simp [dispatchLoop] at hi
  | cons j rest ih =>
      intro i hi
      simp only [dispatchLoop] at hi
      by_cases hjt : t = j
      · subst hjt
        rw [if_neg (by simp)] at hi
        rcases hr : resp t ev with _ | _ | _ <;> simp [hr] at hi
        · rcases hi with hi | hi
          · exact hi
          · exact ih i hi
        · exact hi
        · exact hi
      · rw [if_pos ⟨by simp [h], fun he => hjt (Option.some.inj he)⟩] at hi
        exact ih i hi

/-- Helper: if the dispatch loop ends with drag-start target `some i`, the
event was a `DragStarted`, handler `i` consumed it, and `i` was offered
the event. -/
theorem dispatchLoop_dst_consume (resp : HandlerChain) (dt : Option ℕ) (ev : UserEvent) :
    ∀ l : List ℕ, ∀ i, (dispatchLoop resp dt ev l).2 = some i →
      is_drag_started ev = true ∧ resp i ev = EventPropagation.Consume
        ∧ i ∈ (dispatchLoop resp dt ev l).1 := by
  intro l
  induction l with
  | nil => intro i h; simp [dispatchLoop] at h
  | cons j rest ih =>
      intro i h
      simp only [dispatchLoop] at h ⊢
      by_cases hskip : (is_drag_or_drag_ended ev : Prop) ∧ dt ≠ some j
      · rw [if_pos hskip] at h ⊢
        exact ih i h
      · rw [if_neg hskip] at h ⊢
        rcases hr : resp j ev with _ | _ | _ <;> simp [hr] at h ⊢
        · obtain ⟨h1, h2, h3⟩ := ih i h
          exact ⟨h1, h2, Or.inr h3⟩
        · rcases hds : is_drag_started ev with _ | _ <;> simp [hds] at h
          subst h
          exact ⟨rfl, hr, rfl⟩

/-- Helper: if handler `i` is offered the event and returns `Consume`, the
loop ends there, with drag-start target `some i` exactly for `DragStarted`
events. -/
theorem dispatchLoop_consume_dst (resp : HandlerChain) (dt : Option ℕ) (ev : UserEvent) :
    ∀ l : List ℕ, ∀ i ∈ (dispatchLoop resp dt ev l).1,
      resp i ev = EventPropagation.Consume →
      (dispatchLoop resp dt ev l).2 = (if is_drag_started ev then some i else none) := by
  intro l
  induction l with
  | nil => intro i hi; simp [dispatchLoop] at hi
  | cons j rest ih =>
      intro i hi hc
      simp only [dispatchLoop] at hi ⊢
      by_cases hskip : (is_drag_or_drag_ended ev : Prop) ∧ dt ≠ some j
      · rw [if_pos hskip] at hi ⊢
        exact ih i hi hc
      · rw [if_neg hskip] at hi ⊢
        rcases hr : resp j ev with _ | _ | _ <;> simp [hr] at hi ⊢
        · rcases hi with hi | hi
          · subst hi; rw [hc] at hr; cases hr
          · exact ih i hi hc
        · subst hi; rw [hc] at hr; cases hr
        · subst hi
          rcases hds : is_drag_started ev with _ | _ <;> simp [hds]

/-- C5: during dispatch, `Drag`/`DragEnded` events are offered only to the
pinned drag-target handler (to no handler when none is pinned); the drag
target changes to `some i` only when handler `i` returned `Consume` for a
`DragStarted` event, and does change to `some i` when handler `i` was
offered a `DragStarted` and consumed it; after dispatching a `DragEnded`
the drag target is cleared regardless of the handler's response. -/
theorem C5_drag_pinning (resp : HandlerChain) (n : ℕ) (dragTarget : Option ℕ)
    (ev : UserEvent) :
    (is_drag_or_drag_ended ev = true →
      (dragTarget = none → (dispatchEvent resp n dragTarget ev).1 = [])
      ∧ (∀ t, dragTarget = some t →
          ∀ i ∈ (dispatchEvent resp n dragTarget ev).1, i = t))
    ∧ (∀ i, (dispatchEvent resp n dragTarget ev).2 = some i →
        (dispatchEvent resp n dragTarget ev).2 ≠ dragTarget →
        is_drag_started ev = true ∧ resp i ev = EventPropagation.Consume)
    ∧ (is_drag_started ev = true →
        ∀ i ∈ (dispatchEvent resp n dragTarget ev).1,
          resp i ev = EventPropagation.Consume →
          (dispatchEvent resp n dragTarget ev).2 = some i)
    ∧ (is_drag_ended ev = true → (dispatchEvent resp n dragTarget ev).2 = none) := by
  refine ⟨fun h => ⟨fun hn => ?_, fun t ht i hi => ?_⟩, fun i h1 h2 => ?_,
    fun hds i hi hc => ?_, fun h => ?_⟩
  · subst hn
    simp [dispatchEvent, dispatchLoop_drag_no_target resp ev h (List.range n)]
  · subst ht
    exact dispatchLoop_drag_target_only resp ev t h (List.range n) i
      (by simpa [dispatchEvent] using hi)
  · rcases hde : is_drag_ended ev with _ | _
    · rcases hr2 : (dispatchLoop resp dragTarget ev (List.range n)).2 with _ | k
      · exact absurd (by simp [dispatchEvent, hde, hr2]) h2
      · have hk := dispatchLoop_dst_consume resp dragTarget ev (List.range n) k hr2
        have hki : k = i := by
          have := h1
          simp [dispatchEvent, hde, hr2] at this
          exact this
        subst hki
        exact ⟨hk.1, hk.2.1⟩
    · exfalso
      have : (dispatchEvent resp n dragTarget ev).2 = none := by
        simp [dispatchEvent, hde]
      rw [this] at h1
      cases h1
  · have hr2 := dispatchLoop_consume_dst resp dragTarget ev (List.range n) i
      (by simpa [dispatchEvent] using hi) hc
    have hde : is_drag_ended ev = false := by
      cases ev <;> simp_all [is_drag_started, is_drag_ended]
    simp [dispatchEvent, hr2, hds, hde]
  · simp [dispatchEvent, h]

/-- Witness for C5 at concrete inputs: a chain of three handlers where
handler 1 consumes and the others propagate.  A `Drag` with no target
reaches no handler; a `Drag` with target 2 is offered only to handler 2; a
`DragStarted` consumed by handler 1 pins the target to 1; a `DragEnded`
dispatched with target 1 clears the target. -/
theorem C5_witness :
    (dispatchEvent (fun i _ => if i = 1 then EventPropagation.Consume
        else EventPropagation.Propagate) 3 none
      (UserEvent.Drag MouseButton.Left (1, 0) ⟨(0, 0), MouseButtonsState.init⟩)).1 = []
    ∧ (∀ i ∈ (dispatchEvent (fun i _ => if i = 1 then EventPropagation.Consume
        else EventPropagation.Propagate) 3 (some 2)
      (UserEvent.Drag MouseButton.Left (1, 0) ⟨(0, 0), MouseButtonsState.init⟩)).1, i = 2)
    ∧ (dispatchEvent (fun i _ => if i = 1 then EventPropagation.Consume
        else EventPropagation.Propagate) 3 none
      (UserEvent.DragStarted MouseButton.Left ⟨(0, 0), MouseButtonsState.init⟩)).2 = some 1
    ∧ (dispatchEvent (fun i _ => if i = 1 then EventPropagation.Consume
        else EventPropagation.Propagate) 3 (some 1)
      (UserEvent.DragEnded MouseButton.Left ⟨(0, 0), MouseButtonsState.init⟩)).2 = none := by
  refine ⟨((C5_drag_pinning (fun i _ => if i = 1 then EventPropagation.Consume
        else EventPropagation.Propagate) 3 none
      (UserEvent.Drag MouseButton.Left (1, 0) ⟨(0, 0), MouseButtonsState.init⟩)).1 rfl).1 rfl,
    fun i hi => ((C5_drag_pinning (fun i _ => if i = 1 then EventPropagation.Consume
        else EventPropagation.Propagate) 3 (some 2)
      (UserEvent.Drag MouseButton.Left (1, 0) ⟨(0, 0), MouseButtonsState.init⟩)).1 rfl).2
        2 rfl i hi,
    (C5_drag_pinning (fun i _ => if i = 1 then EventPropagation.Consume
        else EventPropagation.Propagate) 3 none
      (UserEvent.DragStarted MouseButton.Left ⟨(0, 0), MouseButtonsState.init⟩)).2.2.1
        rfl 1 ?_ (by simp),
    (C5_drag_pinning (fun i _ => if i = 1 then EventPropagation.Consume
        else EventPropagation.Propagate) 3 (some 1)
      (UserEvent.DragEnded MouseButton.Left ⟨(0, 0), MouseButtonsState.init⟩)).2.2.2 rfl⟩
  simp [dispatchEvent, dispatchLoop, List.range_succ, is_drag_or_drag_ended]

/-- C1 counterexample: with no consuming handler (so the drag target is
never pinned), the over-threshold moves to `(10, 0)` and then `(20, 0)`
each emit `DragStarted` — `DragStarted` *is* emitted a second time during
the same drag; and with a pinned drag target, the move to `(2, 0)` (taxicab
distance 2 ≤ 3 from the press-origin) *does* emit `Drag`. -/
theorem C1_counterexample :
    c1_run_move1.2 =
      [(UserEvent.PointerMoved ⟨(10, 0), ⟨true, false, false, false⟩⟩, []),
       (UserEvent.DragStarted MouseButton.Left ⟨(0, 0), ⟨true, false, false, false⟩⟩, []),
       (UserEvent.Drag MouseButton.Left (10, 0) ⟨(10, 0), ⟨true, false, false, false⟩⟩, [])]
    ∧ c1_run_move2.2 =
      [(UserEvent.PointerMoved ⟨(20, 0), ⟨true, false, false, false⟩⟩, []),
       (UserEvent.DragStarted MouseButton.Left ⟨(0, 0), ⟨true, false, false, false⟩⟩, []),
       (UserEvent.Drag MouseButton.Left (10, 0) ⟨(20, 0), ⟨true, false, false, false⟩⟩, [])]
    ∧ taxicab_distance (2, 0) (0, 0) ≤ DRAG_THRESHOLD
    ∧ c1_pin_move2.2 =
      [(UserEvent.PointerMoved ⟨(2, 0), ⟨true, false, false, false⟩⟩, [0]),
       (UserEvent.Drag MouseButton.Left (-8, 0) ⟨(2, 0), ⟨true, false, false, false⟩⟩, [0])] := by
  refine ⟨?_, ?_, by norm_num [taxicab_distance, DRAG_THRESHOLD], ?_⟩ <;>
    norm_num [c1_run_move2, c1_run_move1, c1_run_press, c1_pin_move2, c1_pin_move1,
      c1_pin_press, EventProcessor.handle, EventProcessor.process, EventProcessor.init,
      handleEvents, dispatchEvent, dispatchLoop, List.range_succ, is_drag_or_drag_ended,
      is_drag_started, is_drag_ended, propagateAll, consumeAll,
      MouseButtonsState.single_pressed, MouseButtonsState.pressed_buttons,
      MouseButtonsState.set_pressed, MouseButtonsState.set, MouseButtonsState.init,
      EventProcessor.get_mouse_event, EventProcessor.get_mouse_event_pos,
      taxicab_distance, DRAG_THRESHOLD, psub, GestureController.init]

/-- C1, amended: with exactly one button pressed, a `PointerMoved` emits,
beyond the `PointerMoved` event itself: nothing when no drag target is
pinned and the taxicab distance from the press-origin is ≤ 3.0;
`DragStarted` immediately followed by `Drag` when no drag target is pinned
and that distance exceeds 3.0 (so `DragStarted` repeats on later
over-threshold moves if no handler consumes it); and `Drag` only — never
`DragStarted` — whenever a drag target is pinned. -/
theorem C1_drag_threshold (s : EventProcessor) (button : MouseButton) (pos : Point)
    (now : ℕ) (hb : s.buttons_state.single_pressed = some button) :
    (s.drag_target = none →
      taxicab_distance pos s.pointer_pressed_position ≤ DRAG_THRESHOLD →
      (s.process (RawUserEvent.PointerMoved pos) now).2 =
        some [UserEvent.PointerMoved ⟨pos, s.buttons_state⟩])
    ∧ (s.drag_target = none →
      DRAG_THRESHOLD < taxicab_distance pos s.pointer_pressed_position →
      (s.process (RawUserEvent.PointerMoved pos) now).2 =
        some [UserEvent.PointerMoved ⟨pos, s.buttons_state⟩,
          UserEvent.DragStarted button ⟨s.pointer_pressed_position, s.buttons_state⟩,
          UserEvent.Drag button (psub pos s.pointer_position) ⟨pos, s.buttons_state⟩])
    ∧ (∀ t, s.drag_target = some t →
      (s.process (RawUserEvent.PointerMoved pos) now).2 =
        some [UserEvent.PointerMoved ⟨pos, s.buttons_state⟩,
          UserEvent.Drag button (psub pos s.pointer_position) ⟨pos, s.buttons_state⟩]) := by
  refine ⟨fun hd hle => ?_, fun hd hgt => ?_, fun t hd => ?_⟩
  · simp [EventProcessor.process, hb, hd, not_lt.mpr hle,
      EventProcessor.get_mouse_event, EventProcessor.get_mouse_event_pos]
  · simp [EventProcessor.process, hb, hd, hgt,
      EventProcessor.get_mouse_event, EventProcessor.get_mouse_event_pos]
  · simp [EventProcessor.process, hb, hd,
      EventProcessor.get_mouse_event, EventProcessor.get_mouse_event_pos]

/-- Witness for the amended C1 at concrete inputs: with only `Left`
pressed, a move to `(1, 1)` (taxicab 2 ≤ 3, no target) emits only
`PointerMoved`; a move to `(10, 0)` (taxicab 10 > 3, no target) emits
`PointerMoved`, `DragStarted`, `Drag`; a move to `(1, 1)` with target 0
pinned emits `PointerMoved` and `Drag` only. -/
theorem C1_witness :
    (({ EventProcessor.init with buttons_state := ⟨true, false, false, false⟩ }
        : EventProcessor).process (RawUserEvent.PointerMoved (1, 1)) 5).2 =
      some [UserEvent.PointerMoved ⟨(1, 1), ⟨true, false, false, false⟩⟩]
    ∧ (({ EventProcessor.init with buttons_state := ⟨true, false, false, false⟩ }
        : EventProcessor).process (RawUserEvent.PointerMoved (10, 0)) 5).2 =
      some [UserEvent.PointerMoved ⟨(10, 0), ⟨true, false, false, false⟩⟩,
        UserEvent.DragStarted MouseButton.Left ⟨(0, 0), ⟨true, false, false, false⟩⟩,
        UserEvent.Drag MouseButton.Left (10, 0) ⟨(10, 0), ⟨true, false, false, false⟩⟩]
    ∧ (({ EventProcessor.init with
          buttons_state := ⟨true, false, false, false⟩
          drag_target := some 0 }
        : EventProcessor).process (RawUserEvent.PointerMoved (1, 1)) 5).2 =
      some [UserEvent.PointerMoved ⟨(1, 1), ⟨true, false, false, false⟩⟩,
        UserEvent.Drag MouseButton.Left (1, 1) ⟨(1, 1), ⟨true, false, false, false⟩⟩] := by
  refine ⟨?_, ?_, ?_⟩
  · have := (C1_drag_threshold
      ({ EventProcessor.init with buttons_state := ⟨true, false, false, false⟩ })
      MouseButton.Left (1, 1) 5 rfl).1 rfl
      (by norm_num [taxicab_distance, DRAG_THRESHOLD, EventProcessor.init])
    simpa [EventProcessor.init] using this
  · have := (C1_drag_threshold
      ({ EventProcessor.init with buttons_state := ⟨true, false, false, false⟩ })
      MouseButton.Left (10, 0) 5 rfl).2.1 rfl
      (by norm_num [taxicab_distance, DRAG_THRESHOLD, EventProcessor.init])
    simpa [EventProcessor.init, psub] using this
  · have := (C1_drag_threshold
      ({ EventProcessor.init with
          buttons_state := ⟨true, false, false, false⟩
          drag_target := some 0 })
      MouseButton.Left (1, 1) 5 rfl).2.2 0 rfl
    simpa [EventProcessor.init, psub] using this

/-- After the two touch-starts, the gesture controller is exactly the
baseline captured by `start` from the two contacts. -/
theorem scenario_s2_gc : scenario_s2.gesture_controller =
    GestureController.init.start scenario_touch1 scenario_touch2 := rfl

/-- The scenario baseline distance is `√10000 = 100`. -/
theorem scenario_baseline_distance :
    (GestureController.init.start scenario_touch1 scenario_touch2).distance_start = 100 := by
  unfold GestureController.start scenario_touch1 scenario_touch2
  simp only [magnitude, psub]
  norm_num
  rw [show (10000 : ℝ) = 100 ^ 2 by norm_num]
  exact Real.sqrt_sq (by norm_num)

/-- The scenario baseline midpoint is `(50, 0)`. -/
theorem scenario_baseline_midpoint :
    (GestureController.init.start scenario_touch1 scenario_touch2).midpoint_start =
      (50, 0) := by
  unfold GestureController.start scenario_touch1 scenario_touch2
  simp only [pmid, psub]
  norm_num

/-- The scenario baseline angle is `atan2 0 (-100) = π` (the vector from
contact 1 to contact 2 points in the negative x direction). -/
theorem scenario_baseline_angle :
    (GestureController.init.start scenario_touch1 scenario_touch2).angle_start =
      Real.pi := by
  unfold GestureController.start scenario_touch1 scenario_touch2 atan2 psub
  norm_num
  rw [show (⟨(-100 : ℝ), (0 : ℝ)⟩ : ℂ) = ((-100 : ℝ) : ℂ) from rfl]
  exact Complex.arg_ofReal_of_neg (by norm_num)

/-- The new inter-touch distance of the scenario move is `√26900`. -/
theorem scenario_new_distance :
    pair_distance (new_positions scenario_touch1 scenario_touch2 ⟨1, (0, 130)⟩) =
      Real.sqrt 26900 := by
  unfold new_positions scenario_touch1 scenario_touch2 pair_distance magnitude psub
  norm_num

/-- The old inter-touch distance of the scenario is `√10000 = 100`. -/
theorem scenario_old_distance :
    pair_distance (scenario_touch1.prev_position, scenario_touch2.prev_position) =
      100 := by
  unfold scenario_touch1 scenario_touch2 pair_distance magnitude psub
  norm_num
  rw [show (10000 : ℝ) = 100 ^ 2 by norm_num]
  exact Real.sqrt_sq (by norm_num)

/-- `160 < √26900`. -/
theorem sqrt26900_gt_160 : (160 : ℝ) < Real.sqrt 26900 :=
  (Real.lt_sqrt (by norm_num)).mpr (by norm_num)

/-- `164 < √26900`. -/
theorem sqrt26900_gt_164 : (164 : ℝ) < Real.sqrt 26900 :=
  (Real.lt_sqrt (by norm_num)).mpr (by norm_num)

/-- `√26900 < 164.1`. -/
theorem sqrt26900_lt : Real.sqrt 26900 < 164.1 :=
  (Real.sqrt_lt' (by norm_num)).mpr (by norm_num)

/-- Helper: `update_gesture` when the moving contact is `t0`, the mode is
still `Pan`, and the zoom threshold is crossed: the mode switches to `Zoom`
and the single emitted event is `Zoom` with factor old-distance over
new-distance, anchored at the non-moving contact's previous position. -/
theorem update_gesture_zoom (gc : GestureController) (t0 t1 : TouchInfo)
    (ev : TouchEvent) (hid : ev.touch_id = t0.id)
    (hmode : gc.touch_mode = TouchMode.Pan)
    (hz : |pair_distance (new_positions t0 t1 ev) - gc.distance_start| >
      ZOOM_THRESHOLD) :
    gc.update_gesture t0 t1 ev =
      ({ gc with touch_mode := TouchMode.Zoom },
        [UserEvent.Zoom
          (pair_distance (t0.prev_position, t1.prev_position) /
            pair_distance (new_positions t0 t1 ev))
          t1.prev_position]) := by
  have hstep : gesture_mode_step gc (pair_distance (new_positions t0 t1 ev))
      (pmid (new_positions t0 t1 ev).1 (new_positions t0 t1 ev).2)
      (pair_angle (new_positions t0 t1 ev)) = TouchMode.Zoom := by
    unfold gesture_mode_step
    rw [if_pos hmode, if_pos hz]
  unfold GestureController.update_gesture
  rw [if_neg (not_not.mpr (Or.inl hid.symm))]
  simp only [hstep, other_touch_position, if_pos hid]

/-- Scenario C `update_gesture` evaluation: the mode switches to `Zoom` and
the event is `Zoom(100 / √26900, (100, 0))`. -/
theorem scenario_update :
    (GestureController.init.start scenario_touch1 scenario_touch2).update_gesture
        scenario_touch1 scenario_touch2 ⟨1, (0, 130)⟩ =
      ({ GestureController.init.start scenario_touch1 scenario_touch2 with
          touch_mode := TouchMode.Zoom },
        [UserEvent.Zoom (100 / Real.sqrt 26900) (100, 0)]) := by
  have hz : |pair_distance (new_positions scenario_touch1 scenario_touch2 ⟨1, (0, 130)⟩) -
      (GestureController.init.start scenario_touch1 scenario_touch2).distance_start| >
      ZOOM_THRESHOLD := by
    rw [scenario_new_distance, scenario_baseline_distance]
    unfold ZOOM_THRESHOLD
    have h160 := sqrt26900_gt_160
    rw [abs_of_pos (by linarith)]
    linarith
  rw [update_gesture_zoom _ _ _ _ rfl rfl hz, scenario_old_distance,
    scenario_new_distance]
  rfl

/-- C6: the gesture mode is reset to `Pan` by `start`; on an update while
still in `Pan` (for a tracked contact), the new mode is decided by the
ordered checks Zoom-then-Tilt-then-Rotate with the first satisfied check
winning (else it stays `Pan`); and once the mode is not `Pan`, an update
never changes it (no re-entering `Pan`, no switching between non-`Pan`
modes) until the next `start`. -/
theorem C6_gesture_mode (gc : GestureController) (t0 t1 : TouchInfo) (ev : TouchEvent) :
    ((gc.start t0 t1).touch_mode = TouchMode.Pan)
    ∧ (gc.touch_mode ≠ TouchMode.Pan →
        ((gc.update_gesture t0 t1 ev).1).touch_mode = gc.touch_mode)
    ∧ (gc.touch_mode = TouchMode.Pan → (t0.id = ev.touch_id ∨ t1.id = ev.touch_id) →
        ((gc.update_gesture t0 t1 ev).1).touch_mode =
          (if |pair_distance (new_positions t0 t1 ev) - gc.distance_start| >
              ZOOM_THRESHOLD then TouchMode.Zoom
           else if magnitude (psub
              (pmid (new_positions t0 t1 ev).1 (new_positions t0 t1 ev).2)
              gc.midpoint_start) > TILT_THRESHOLD then TouchMode.Tilt
           else if |pair_angle (new_positions t0 t1 ev) - gc.angle_start| >
              ROTATE_THRESHOLD then TouchMode.Rotate
           else TouchMode.Pan)) := by
  refine ⟨rfl, fun h => ?_, fun h hid => ?_⟩
  · unfold GestureController.update_gesture
    by_cases hg : t0.id = ev.touch_id ∨ t1.id = ev.touch_id
    · rw [if_neg (not_not.mpr hg)]
      simp only [gesture_mode_step, if_neg h]
    · rw [if_pos hg]
  · unfold GestureController.update_gesture
    rw [if_neg (not_not.mpr hid)]
    simp only [gesture_mode_step, if_pos h]

/-- Witness for C6 at concrete inputs: a fresh `start` is in `Pan`; an
update of a controller locked in `Zoom` leaves it in `Zoom`; and the
scenario-C update from `Pan` lands in `Zoom` (the first, zoom, check
fires). -/
theorem C6_witness :
    (GestureController.init.start scenario_touch1 scenario_touch2).touch_mode =
      TouchMode.Pan
    ∧ ((gcZoomLocked.update_gesture scenario_touch1 scenario_touch2
        ⟨1, (0, 130)⟩).1).touch_mode = TouchMode.Zoom
    ∧ (((GestureController.init.start scenario_touch1 scenario_touch2).update_gesture
        scenario_touch1 scenario_touch2 ⟨1, (0, 130)⟩).1).touch_mode =
      TouchMode.Zoom := by
  refine ⟨(C6_gesture_mode GestureController.init scenario_touch1 scenario_touch2
      ⟨1, (0, 130)⟩).1, ?_, ?_⟩
  · exact (C6_gesture_mode gcZoomLocked scenario_touch1 scenario_touch2
      ⟨1, (0, 130)⟩).2.1 (by rw [gcZoomLocked]; decide)
  · have h3 := (C6_gesture_mode
      (GestureController.init.start scenario_touch1 scenario_touch2)
      scenario_touch1 scenario_touch2 ⟨1, (0, 130)⟩).2.2 rfl (Or.inl rfl)
    rw [h3]
    have hz : |pair_distance (new_positions scenario_touch1 scenario_touch2
        ⟨1, (0, 130)⟩) -
        (GestureController.init.start scenario_touch1 scenario_touch2).distance_start| >
        ZOOM_THRESHOLD := by
      rw [scenario_new_distance, scenario_baseline_distance]
      unfold ZOOM_THRESHOLD
      have h160 := sqrt26900_gt_160
      rw [abs_of_pos (by linarith)]
      linarith
    rw [if_pos hz]

/-- C7 counterexample: in scenario C the captured baseline angle is `π`,
not `0` (the delta `(0,0) − (100,0)` points along the negative x-axis); the
new inter-touch distance `√26900 ≈ 164.0` exceeds `163`, so it is not
`≈ 161.6`; and the emitted zoom factor `100/√26900 ≈ 0.610` is below
`0.615`, so it is not `≈ 0.619`. -/
theorem C7_counterexample :
    scenario_s2.gesture_controller.angle_start = Real.pi
    ∧ Real.pi ≠ 0
    ∧ (163 : ℝ) < pair_distance (new_positions scenario_touch1 scenario_touch2
        ⟨1, (0, 130)⟩)
    ∧ scenario_step3.2 = some [UserEvent.Zoom (100 / Real.sqrt 26900) (100, 0)]
    ∧ 100 / Real.sqrt 26900 < 0.615 := by
  have hpos : (0 : ℝ) < Real.sqrt 26900 := lt_trans (by norm_num) sqrt26900_gt_160
  refine ⟨?_, Real.pi_ne_zero, ?_, ?_, ?_⟩
  · rw [scenario_s2_gc]
    exact scenario_baseline_angle
  · rw [scenario_new_distance]
    exact (Real.lt_sqrt (by norm_num)).mpr (by norm_num)
  · have h1 : scenario_step3.2 =
        some ((scenario_s2.gesture_controller.update_gesture scenario_touch1
          scenario_touch2 ⟨1, (0, 130)⟩).2) := rfl
    rw [h1, scenario_s2_gc, scenario_update]
  · rw [div_lt_iff hpos]
    nlinarith [sqrt26900_gt_164]

/-- C7, amended: in scenario C the captured baseline is distance 100,
midpoint `(50, 0)` and angle `π` (not 0); the move of contact 1 to
`(0, 130)` gives new inter-touch distance `√26900 ≈ 164.0` (not 161.6),
whose deviation from the baseline exceeds 60, so the mode becomes `Zoom`,
and the single emitted event is `Zoom` with factor
`100/√26900 ≈ 0.610` (not 0.619) and anchor `(100, 0)`, the position of
the non-moving contact. -/
theorem C7_scenario_zoom :
    scenario_s2.gesture_controller.distance_start = 100
    ∧ scenario_s2.gesture_controller.midpoint_start = (50, 0)
    ∧ scenario_s2.gesture_controller.angle_start = Real.pi
    ∧ scenario_step3.1.gesture_controller.touch_mode = TouchMode.Zoom
    ∧ scenario_step3.2 = some [UserEvent.Zoom (100 / Real.sqrt 26900) (100, 0)]
    ∧ ((164 : ℝ) < Real.sqrt 26900 ∧ Real.sqrt 26900 < 164.1)
    ∧ ((0.609 : ℝ) < 100 / Real.sqrt 26900 ∧ 100 / Real.sqrt 26900 < 0.61) := by
  have hpos : (0 : ℝ) < Real.sqrt 26900 := lt_trans (by norm_num) sqrt26900_gt_160
  refine ⟨?_, ?_, ?_, ?_, ?_, ⟨sqrt26900_gt_164, sqrt26900_lt⟩, ?_, ?_⟩
  · rw [scenario_s2_gc]; exact scenario_baseline_distance
  · rw [scenario_s2_gc]; exact scenario_baseline_midpoint
  · rw [scenario_s2_gc]; exact scenario_baseline_angle
  · have h1 : scenario_step3.1.gesture_controller =
        (scenario_s2.gesture_controller.update_gesture scenario_touch1
          scenario_touch2 ⟨1, (0, 130)⟩).1 := rfl
    rw [h1, scenario_s2_gc, scenario_update]
  · have h1 : scenario_step3.2 =
        some ((scenario_s2.gesture_controller.update_gesture scenario_touch1
          scenario_touch2 ⟨1, (0, 130)⟩).2) := rfl
    rw [h1, scenario_s2_gc, scenario_update]
  · rw [lt_div_iff hpos]
    nlinarith [sqrt26900_lt]
  · rw [div_lt_iff hpos]
    nlinarith [sqrt26900_gt_164]

end Galileo
